import Mathlib

/-! Shallow embedding of src/collector.py (ILO-Colector).

The embedding models the RedfishCollector class, its two sinks, the fetch
operation and the orchestrator as pure functions.  External effects (the
HTTP transport, the filesystem, the MongoDB driver and the clock) enter
through an explicit oracle record EndpointWorld; every operation returns
its result together with the list of observable events it performed, and
an uncaught Python exception is modelled by an Except.error component. -/

namespace ILOCollector

/-- A naive UTC timestamp, as produced by datetime.utcnow in the source. -/
structure Timestamp where
  year : Nat
  month : Nat
  day : Nat
  hour : Nat
  minute : Nat
  second : Nat
  microsecond : Nat

/-- One decimal digit character, used when rendering a number zero padded. -/
def digitChar (n : Nat) : Char := Char.ofNat (48 + n % 10)

/-- Fixed width zero padded decimal rendering, as a digit list. -/
def padDigits (width n : Nat) : List Char :=
  (List.range width).map fun i => digitChar (n / 10 ^ (width - 1 - i))

/-- datetime.isoformat of a naive timestamp: YYYY-MM-DDTHH:MM:SS, with the
fractional part .ffffff appended exactly when the microsecond field is
nonzero, matching Python's datetime.isoformat. -/
def Timestamp.isoformat (t : Timestamp) : String :=
  ⟨padDigits 4 t.year ++ ('-' :: padDigits 2 t.month) ++ ('-' :: padDigits 2 t.day) ++
   ('T' :: padDigits 2 t.hour) ++ (':' :: padDigits 2 t.minute) ++ (':' :: padDigits 2 t.second) ++
   (if t.microsecond = 0 then [] else '.' :: padDigits 6 t.microsecond)⟩

/-- The field ranges datetime.utcnow guarantees. -/
def Timestamp.Valid (t : Timestamp) : Prop :=
  t.year < 10000 ∧ 1 ≤ t.month ∧ t.month ≤ 12 ∧ 1 ≤ t.day ∧ t.day ≤ 31 ∧
  t.hour ≤ 23 ∧ t.minute ≤ 59 ∧ t.second ≤ 59 ∧ t.microsecond < 1000000

/-- Shape check over a character list: each pattern position is either a
required literal character or a digit slot. -/
def checkShape : List (Option Char) → List Char → Bool
  | [], [] => true
  | none :: ps, ch :: cs => ch.isDigit && checkShape ps cs
  | some d :: ps, ch :: cs => (ch == d) && checkShape ps cs
  | _ :: _, [] => false
  | [], _ :: _ => false

/-- Pattern of the date-time part of an ISO-8601 string. -/
def dtPattern : List (Option Char) :=
  [none, none, none, none, some '-', none, none, some '-', none, none, some 'T',
   none, none, some ':', none, none, some ':', none, none]

/-- Pattern of the fractional-seconds part of an ISO-8601 string. -/
def fracPattern : List (Option Char) := [some '.', none, none, none, none, none, none]

/-- Numeric value of a two digit group. -/
def twoDigitVal (a b : Char) : Nat := (a.toNat - 48) * 10 + (b.toNat - 48)

/-- Validity of a UTC ISO-8601 timestamp string: shape YYYY-MM-DDTHH:MM:SS
with an optional six digit fractional part, and in-range month, day, hour,
minute and second fields. -/
def isIso8601 (s : String) : Bool :=
  let l := s.data
  (checkShape dtPattern l || checkShape (dtPattern ++ fracPattern) l) &&
  decide (1 ≤ twoDigitVal (l.getD 5 'x') (l.getD 6 'x')) &&
  decide (twoDigitVal (l.getD 5 'x') (l.getD 6 'x') ≤ 12) &&
  decide (1 ≤ twoDigitVal (l.getD 8 'x') (l.getD 9 'x')) &&
  decide (twoDigitVal (l.getD 8 'x') (l.getD 9 'x') ≤ 31) &&
  decide (twoDigitVal (l.getD 11 'x') (l.getD 12 'x') ≤ 23) &&
  decide (twoDigitVal (l.getD 14 'x') (l.getD 15 'x') ≤ 59) &&
  decide (twoDigitVal (l.getD 17 'x') (l.getD 18 'x') ≤ 59)

theorem digitChar_isDigit (n : Nat) : (digitChar n).isDigit = true := by
  have h : n % 10 < 10 := Nat.mod_lt n (by norm_num)
  unfold digitChar
  revert h
  generalize n % 10 = k
  intro h
  interval_cases k <;> decide

theorem digitChar_toNat (n : Nat) : (digitChar n).toNat = 48 + n % 10 := by
  have h : n % 10 < 10 := Nat.mod_lt n (by norm_num)
  unfold digitChar
  revert h
  generalize n % 10 = k
  intro h
  interval_cases k <;> decide

theorem padDigits_two (n : Nat) :
    padDigits 2 n = [digitChar (n / 10), digitChar (n / 1)] := rfl

theorem padDigits_four (n : Nat) :
    padDigits 4 n =
      [digitChar (n / 1000), digitChar (n / 100), digitChar (n / 10), digitChar (n / 1)] := rfl

theorem padDigits_six (n : Nat) :
    padDigits 6 n =
      [digitChar (n / 100000), digitChar (n / 10000), digitChar (n / 1000),
       digitChar (n / 100), digitChar (n / 10), digitChar (n / 1)] := rfl

theorem twoDigitVal_digitChar (n : Nat) (h : n < 100) :
    twoDigitVal (digitChar (n / 10)) (digitChar n) = n := by
  simp only [twoDigitVal, digitChar_toNat]
  omega

/-- The rendering datetime.isoformat produces is always a valid UTC ISO-8601
timestamp string, for any timestamp with in-range fields. -/
theorem isoformat_valid (t : Timestamp) (hv : t.Valid) : isIso8601 t.isoformat = true := by
  obtain ⟨hy, hm1, hm2, hd1, hd2, hh, hmin, hsec, hus⟩ := hv
  have hm : twoDigitVal (digitChar (t.month / 10)) (digitChar t.month) = t.month :=
    twoDigitVal_digitChar _ (by omega)
  have hd : twoDigitVal (digitChar (t.day / 10)) (digitChar t.day) = t.day :=
    twoDigitVal_digitChar _ (by omega)
  have hho : twoDigitVal (digitChar (t.hour / 10)) (digitChar t.hour) = t.hour :=
    twoDigitVal_digitChar _ (by omega)
  have hmi : twoDigitVal (digitChar (t.minute / 10)) (digitChar t.minute) = t.minute :=
    twoDigitVal_digitChar _ (by omega)
  have hse : twoDigitVal (digitChar (t.second / 10)) (digitChar t.second) = t.second :=
    twoDigitVal_digitChar _ (by omega)
  by_cases hz : t.microsecond = 0 <;>
    simp [Timestamp.isoformat, hz, padDigits_four, padDigits_two, padDigits_six,
      isIso8601, checkShape, dtPattern, fracPattern, digitChar_isDigit,
      List.getD_cons_succ, List.getD_cons_zero, hm, hd, hho, hmi, hse] <;>
    omega

/-- An opaque JSON value, as passed between the fetcher and the sinks. -/
inductive JValue where
  | jStr (s : String)
  | jBool (b : Bool)
  | jNat (n : Nat)
  | jDate (t : Timestamp)
  | jObj (fields : List (String × JValue))

/-- Keys of a JSON object, in order; non-objects have none. -/
def jKeys : JValue → List String
  | .jObj fields => fields.map Prod.fst
  | _ => []

/-- First value stored under a key of a JSON object. -/
def jLookup (v : JValue) (k : String) : Option JValue :=
  match v with
  | .jObj fields => (fields.find? fun p => p.1 == k).map Prod.snd
  | _ => none

/-- Observable side effects of one run, in program order.  A fileWrite or
mongoInsert event records an attempt, with its success flag; mongoClose
records that client.close was invoked. -/
inductive Event where
  | log (msg : String)
  | httpGet (url : String)
  | fileWrite (path : String) (doc : JValue) (ok : Bool)
  | mongoConnect (uri : String) (ok : Bool)
  | mongoInsert (dbName collName : String) (doc : JValue) (ok : Bool)
  | mongoClose

/-- Body of an HTTP response: either it parses as JSON or response.json
raises a requests JSONDecodeError (a RequestException since requests 2.27). -/
inductive Body where
  | json (v : JValue)
  | notJson (msg : String)

/-- Outcome of session.get: a transport-level RequestException, or a
response carrying a status code and a body. -/
inductive HttpResult where
  | transportError (msg : String)
  | response (status : Nat) (body : Body)

/-- Oracles for the external effects touched while processing one endpoint:
the HTTP outcome, the two clock reads, and which driver calls raise. -/
structure EndpointWorld where
  http : HttpResult
  mockNow : Timestamp
  dbNow : Timestamp
  fileError : Option String
  connectError : Option String
  insertError : Option String
  closeError : Option String
  insertedId : String

/-- str applied to an optional environment value: Python's str(None) is the
literal string None. -/
def pyStr : Option String → String
  | none => "None"
  | some s => s

/-- The hardcoded endpoint list of RedfishCollector.__init__. -/
def apiEndpoints : List String :=
  ["/redfish/v1", "/redfish/v1/Systems/1", "/redfish/v1/Chassis/1", "/redfish/v1/Managers/1"]

/-- The state RedfishCollector.__init__ builds. -/
structure Collector where
  base_url : String
  auth : String × String
  test_mode : Bool
  output_dir : String
  mongo_uri : String
  mongo_db : String
  mongo_collection : String
  api_endpoints : List String

/-- RedfishCollector.__init__ (src/collector.py lines 15-35). -/
def RedfishCollector.init (host username password : String) (test_mode : Bool)
    (env : String → Option String) : Collector :=
  { base_url := "https://" ++ host
    auth := (username, password)
    test_mode := test_mode
    output_dir := "redfish_data"
    mongo_uri := pyStr (env "MONGO_URI")
    mongo_db := pyStr (env "MONGO_DB")
    mongo_collection := pyStr (env "MONGO_COLLECTION")
    api_endpoints := apiEndpoints }

/-- Python str.strip applied with the single character '/': removes all
leading and trailing occurrences. -/
def pyStrip (s : String) : String :=
  ⟨((s.data.dropWhile fun ch => ch == '/').reverse.dropWhile fun ch => ch == '/').reverse⟩

/-- Python str.replace of the single character '/' by the single character
underscore. -/
def pyReplaceSlash (s : String) : String :=
  ⟨s.data.map fun ch => if ch == '/' then '_' else ch⟩

/-- The filename _save_to_file derives (src/collector.py lines 84-85):
endpoint.strip of '/', then replace '/' by underscore, then `or 'root'`,
then the .json suffix. -/
def filenameFor (endpoint : String) : String :=
  (if pyReplaceSlash (pyStrip endpoint) = "" then "root"
   else pyReplaceSlash (pyStrip endpoint)) ++ ".json"

/-- os.path.join of the output directory and the filename. -/
def filepathFor (c : Collector) (endpoint : String) : String :=
  c.output_dir ++ "/" ++ filenameFor endpoint

/-- The filename derivation as the specification words it: strip leading and
trailing separators, replace the remaining separators with underscores,
default to the literal token root if the stripped result is empty, append
the .json suffix.  Stated only to be compared with filenameFor, which is the
derivation taken from the source. -/
def specFilename (endpoint : String) : String :=
  (if pyStrip endpoint = "" then "root"
   else pyReplaceSlash (pyStrip endpoint)) ++ ".json"

/-- RedfishCollector._save_to_file (src/collector.py lines 81-95).  Returns
True on success; every exception is caught, logged and turned into False. -/
def save_to_file (c : Collector) (data : JValue) (endpoint : String) (w : EndpointWorld) :
    Bool × List Event :=
  let filepath := filepathFor c endpoint
  match w.fileError with
  | none => (true, [Event.fileWrite filepath data true, Event.log ("Saved response to " ++ filepath)])
  | some e => (false, [Event.fileWrite filepath data false, Event.log ("Error saving file: " ++ e)])

/-- RedfishCollector._get_mongo_client (src/collector.py lines 37-49).
Any exception while constructing the client or verifying the connection via
server_info is caught, logged, and turned into a None client. -/
def get_mongo_client (c : Collector) (w : EndpointWorld) : Bool × List Event :=
  match w.connectError with
  | none => (true, [Event.mongoConnect c.mongo_uri true])
  | some e => (false, [Event.mongoConnect c.mongo_uri false,
                       Event.log ("MongoDB connection error: " ++ e)])

/-- The wrapper document _save_to_mongodb inserts (src/collector.py lines
62-68). -/
def mongoDocument (c : Collector) (data : JValue) (endpoint : String) (w : EndpointWorld) : JValue :=
  .jObj [("endpoint", .jStr endpoint), ("data", data),
         ("collection_date", .jDate w.dbNow),
         ("source", .jStr c.base_url),
         ("test_mode", .jBool c.test_mode)]

/-- RedfishCollector._save_to_mongodb (src/collector.py lines 51-79).
The try block covers acquiring the client and inserting; the finally block
closes the client whenever one was acquired.  An exception raised by
client.close inside the finally block is NOT covered by the except clause
and propagates, which the Except.error result records. -/
def save_to_mongodb (c : Collector) (data : JValue) (endpoint : String) (w : EndpointWorld) :
    Except String Bool × List Event :=
  let (clientOk, ev1) := get_mongo_client c w
  if clientOk then
    let document := mongoDocument c data endpoint w
    let (res, ev2) :=
      match w.insertError with
      | none => (true, [Event.mongoInsert c.mongo_db c.mongo_collection document true,
                        Event.log ("Successfully saved to MongoDB (ID: " ++ w.insertedId ++ ")")])
      | some e => (false, [Event.mongoInsert c.mongo_db c.mongo_collection document false,
                           Event.log ("Error saving to MongoDB: " ++ e)])
    match w.closeError with
    | none => (.ok res, ev1 ++ ev2 ++ [Event.mongoClose])
    | some e => (.error e, ev1 ++ ev2 ++ [Event.mongoClose])
  else
    (.ok false, ev1)

/-- The document the test-mode branch of get_api_response builds
(src/collector.py lines 101-105). -/
def mockDocument (endpoint : String) (now : Timestamp) : JValue :=
  .jObj [("endpoint", .jStr endpoint), ("mock_data", .jBool true),
         ("timestamp", .jStr now.isoformat)]

/-- RedfishCollector.get_api_response (src/collector.py lines 97-123).
In test mode it builds the mock document, writes both sinks, and returns
the document.  In live mode it performs the GET; raise_for_status raises
exactly for statuses 400-599; a body that fails to parse as JSON raises a
RequestException as well; any RequestException is caught, logged and turned
into a None result with no sink write.  On a successful parse both sinks
are written and the parsed document is returned.  An exception propagating
out of _save_to_mongodb (a failing close) is not a RequestException and
escapes as Except.error. -/
def get_api_response (c : Collector) (endpoint : String) (w : EndpointWorld) :
    Except String (Option JValue) × List Event :=
  if c.test_mode then
    let mock_data := mockDocument endpoint w.mockNow
    let fileRes := save_to_file c mock_data endpoint w
    let mongoRes := save_to_mongodb c mock_data endpoint w
    let trace := Event.log ("[TEST MODE] Simulating request to " ++ endpoint) ::
      (fileRes.2 ++ mongoRes.2)
    match mongoRes.1 with
    | .ok _ => (.ok (some mock_data), trace)
    | .error exc => (.error exc, trace)
  else
    let url := c.base_url ++ endpoint
    match w.http with
    | .transportError msg =>
        (.ok none, [Event.httpGet url, Event.log ("Error accessing " ++ url ++ ": " ++ msg)])
    | .response status body =>
        if 400 ≤ status ∧ status < 600 then
          (.ok none, [Event.httpGet url,
                      Event.log ("Error accessing " ++ url ++ ": HTTP " ++ toString status)])
        else
          match body with
          | .notJson msg =>
              (.ok none, [Event.httpGet url,
                          Event.log ("Error accessing " ++ url ++ ": " ++ msg)])
          | .json data =>
              let fileRes := save_to_file c data endpoint w
              let mongoRes := save_to_mongodb c data endpoint w
              let trace := Event.httpGet url :: (fileRes.2 ++ mongoRes.2)
              match mongoRes.1 with
              | .ok _ => (.ok (some data), trace)
              | .error exc => (.error exc, trace)

/-- The fetch stage of get_api_response in isolation: the document the
successful paths return, depending only on the mode, the endpoint, the HTTP
outcome and the clock. -/
def fetchOutcome (c : Collector) (endpoint : String) (w : EndpointWorld) : Option JValue :=
  if c.test_mode then some (mockDocument endpoint w.mockNow)
  else
    match w.http with
    | .transportError _ => none
    | .response status body =>
        if 400 ≤ status ∧ status < 600 then none
        else
          match body with
          | .notJson _ => none
          | .json data => some data

/-- True exactly when the live-mode fetch takes an error path the except
clause catches: a transport error or a status raise_for_status raises for. -/
def fetchFails : HttpResult → Bool
  | .transportError _ => true
  | .response status _ => decide (400 ≤ status) && decide (status < 600)

/-- The loop body of collect_all over the remaining endpoints
(src/collector.py lines 130-132).  An exception escaping get_api_response
aborts the loop; the events produced so far and the exception are kept. -/
def collectLoop (c : Collector) (w : String → EndpointWorld) :
    List String → List Event × Option String
  | [] => ([], none)
  | e :: rest =>
      let (res, ev) := get_api_response c e (w e)
      let evHere := Event.log ("Collecting " ++ e) :: ev
      match res with
      | .ok _ =>
          let (evs, err) := collectLoop c w rest
          (evHere ++ evs, err)
      | .error exc => (evHere, some exc)

/-- RedfishCollector.collect_all (src/collector.py lines 125-134). -/
def collect_all (c : Collector) (w : String → EndpointWorld) : List Event × Option String :=
  let start := [Event.log ((if c.test_mode then "[TEST MODE] " else "") ++ "Starting collection..."),
                Event.log ("Storage targets: Local JSON files and MongoDB at " ++ c.mongo_uri)]
  let (evs, err) := collectLoop c w c.api_endpoints
  match err with
  | none => (start ++ evs ++ [Event.log "Collection complete!"], none)
  | some exc => (start ++ evs, some exc)

/-- Python truthiness of os.getenv: false for an unset variable and for the
empty string. -/
def truthyEnv : Option String → Bool
  | none => false
  | some s => !(s == "")

/-- Python str.lower, character by character (ASCII is all the comparison
against true, 1 and t needs). -/
def pyLower (s : String) : String := ⟨s.data.map Char.toLower⟩

/-- The TEST_MODE check of main (src/collector.py line 141). -/
def testModeOf (env : String → Option String) : Bool :=
  let v := pyLower ((env "TEST_MODE").getD "")
  v == "true" || v == "1" || v == "t"

/-- The credential names main requires in live mode. -/
def requiredVars : List String := ["ILO_HOST", "ILO_USER", "ILO_PASSWORD"]

/-- The missing-variable list main computes (src/collector.py line 154). -/
def missingVars (env : String → Option String) : List String :=
  requiredVars.filter fun v => !truthyEnv (env v)

/-- How a run of main ends abnormally: the ValueError raised for missing
credentials, or an exception escaping collect_all. -/
inductive RunError where
  | configError (msg : String)
  | uncaught (msg : String)

/-- main (src/collector.py lines 136-164).  In test mode it builds the
collector with the mock host and runs the collection.  Otherwise it first
checks the three required variables and raises the ValueError naming all
missing ones before constructing the collector, so a config error produces
an empty event trace. -/
def main (env : String → Option String) (w : String → EndpointWorld) :
    List Event × Option RunError :=
  if testModeOf env then
    let c := RedfishCollector.init "mock-ilo.example.com" "test-user" "test-pass" true env
    let (t, err) := collect_all c w
    (t, err.map RunError.uncaught)
  else
    let missing := missingVars env
    if missing.isEmpty then
      let c := RedfishCollector.init ((env "ILO_HOST").getD "") ((env "ILO_USER").getD "")
        ((env "ILO_PASSWORD").getD "") false env
      let (t, err) := collect_all c w
      (t, err.map RunError.uncaught)
    else
      ([], some (RunError.configError
        ("Missing required ILO credentials: " ++ String.intercalate ", " missing)))

/-- Selects the file-sink write attempts of a trace. -/
def Event.isFileWrite : Event → Bool
  | .fileWrite .. => true
  | _ => false

/-- Selects the database connection attempts of a trace. -/
def Event.isMongoConnect : Event → Bool
  | .mongoConnect .. => true
  | _ => false

/-- Selects the close calls of a trace. -/
def Event.isMongoClose : Event → Bool
  | .mongoClose => true
  | _ => false

/-- Selects every database-sink event of a trace. -/
def Event.isMongoEvent : Event → Bool
  | .mongoConnect .. => true
  | .mongoInsert .. => true
  | .mongoClose => true
  | _ => false

def fileWrites (t : List Event) : List Event := t.filter Event.isFileWrite

def mongoConnects (t : List Event) : List Event := t.filter Event.isMongoConnect

def mongoCloses (t : List Event) : List Event := t.filter Event.isMongoClose

def mongoEvents (t : List Event) : List Event := t.filter Event.isMongoEvent

/-- An environment with every variable unset. -/
def envNone : String → Option String := fun _ => none

/-- A concrete clock reading used by the test vectors. -/
def ts0 : Timestamp := ⟨2024, 5, 6, 7, 8, 9, 10⟩

/-- A world where every external call succeeds. -/
def benignWorld : EndpointWorld :=
  { http := .transportError "unused in test mode", mockNow := ts0, dbNow := ts0,
    fileError := none, connectError := none, insertError := none, closeError := none,
    insertedId := "662fa1" }

/-- The collector main builds in test mode under an empty environment. -/
def testC : Collector :=
  RedfishCollector.init "mock-ilo.example.com" "test-user" "test-pass" true envNone

/-- A live-mode collector under an empty environment. -/
def liveC : Collector :=
  RedfishCollector.init "ilo.example.com" "admin" "secret" false envNone

theorem fileWrites_save_to_file (c : Collector) (d : JValue) (e : String) (w : EndpointWorld) :
    fileWrites (save_to_file c d e w).2 =
      [Event.fileWrite (filepathFor c e) d w.fileError.isNone] := by
  cases h : w.fileError <;>
    simp [save_to_file, fileWrites, h, Event.isFileWrite, List.filter]

theorem mongoEvents_save_to_file (c : Collector) (d : JValue) (e : String) (w : EndpointWorld) :
    mongoEvents (save_to_file c d e w).2 = [] := by
  cases h : w.fileError <;>
    simp [save_to_file, mongoEvents, h, Event.isMongoEvent, List.filter]

theorem fileWrites_save_to_mongodb (c : Collector) (d : JValue) (e : String) (w : EndpointWorld) :
    fileWrites (save_to_mongodb c d e w).2 = [] := by
  cases h1 : w.connectError <;> cases h2 : w.insertError <;> cases h3 : w.closeError <;>
    simp [save_to_mongodb, get_mongo_client, fileWrites, h1, h2, h3,
      Event.isFileWrite, List.filter]

theorem mongoConnects_save_to_mongodb (c : Collector) (d : JValue) (e : String)
    (w : EndpointWorld) :
    mongoConnects (save_to_mongodb c d e w).2 =
      [Event.mongoConnect c.mongo_uri w.connectError.isNone] := by
  cases h1 : w.connectError <;> cases h2 : w.insertError <;> cases h3 : w.closeError <;>
    simp [save_to_mongodb, get_mongo_client, mongoConnects, h1, h2, h3,
      Event.isMongoConnect, List.filter]

theorem mongoConnects_save_to_file (c : Collector) (d : JValue) (e : String) (w : EndpointWorld) :
    mongoConnects (save_to_file c d e w).2 = [] := by
  cases h : w.fileError <;>
    simp [save_to_file, mongoConnects, h, Event.isMongoConnect, List.filter]

theorem save_to_file_congr (c : Collector) (d : JValue) (e : String) {w w' : EndpointWorld}
    (hf : w.fileError = w'.fileError) :
    save_to_file c d e w = save_to_file c d e w' := by
  simp [save_to_file, hf]

theorem save_to_mongodb_congr (c : Collector) (d : JValue) (e : String) {w w' : EndpointWorld}
    (h1 : w.connectError = w'.connectError) (h2 : w.insertError = w'.insertError)
    (h3 : w.closeError = w'.closeError) (h4 : w.insertedId = w'.insertedId)
    (h5 : w.dbNow = w'.dbNow) :
    save_to_mongodb c d e w = save_to_mongodb c d e w' := by
  simp [save_to_mongodb, get_mongo_client, mongoDocument, h1, h2, h3, h4, h5]

theorem save_to_mongodb_ok (c : Collector) (d : JValue) (e : String) (w : EndpointWorld)
    (hcl : w.closeError = none) :
    ∃ b, (save_to_mongodb c d e w).1 = Except.ok b := by
  cases h1 : w.connectError <;> cases h2 : w.insertError <;>
    simp [save_to_mongodb, get_mongo_client, h1, h2, hcl]

theorem get_api_response_fetchFail (c : Collector) (e : String) (w : EndpointWorld)
    (hc : c.test_mode = false) (hf : fetchFails w.http = true) :
    ∃ m, get_api_response c e w =
      (Except.ok none, [Event.httpGet (c.base_url ++ e), Event.log m]) := by
  cases hh : w.http with
  | transportError msg =>
      exact ⟨"Error accessing " ++ (c.base_url ++ e) ++ ": " ++ msg,
        by simp [get_api_response, hc, hh]⟩
  | response status body =>
      rw [hh] at hf
      simp only [fetchFails, Bool.and_eq_true, decide_eq_true_eq] at hf
      exact ⟨"Error accessing " ++ (c.base_url ++ e) ++ ": HTTP " ++ toString status,
        by simp [get_api_response, hc, hh, hf]⟩

theorem get_api_response_trace_of_fetch (c : Collector) (e : String) (w : EndpointWorld)
    (d : JValue) (h : fetchOutcome c e w = some d) :
    ∃ pre, (get_api_response c e w).2 =
        pre :: ((save_to_file c d e w).2 ++ (save_to_mongodb c d e w).2) ∧
      (pre = Event.log ("[TEST MODE] Simulating request to " ++ e) ∨
        pre = Event.httpGet (c.base_url ++ e)) := by
  by_cases hc : c.test_mode
  · simp only [fetchOutcome, hc, if_true, Option.some.injEq] at h
    subst h
    refine ⟨Event.log ("[TEST MODE] Simulating request to " ++ e), ?_, Or.inl rfl⟩
    simp only [get_api_response, hc, if_true]
    cases hm : (save_to_mongodb c (mockDocument e w.mockNow) e w).1 <;> simp
  · cases hh : w.http with
    | transportError msg => simp [fetchOutcome, hc, hh] at h
    | response status body =>
        by_cases hs : 400 ≤ status ∧ status < 600
        · simp [fetchOutcome, hc, hh, hs] at h
        · cases hb : body with
          | notJson msg => simp [fetchOutcome, hc, hh, hs, hb] at h
          | json dd =>
              simp only [fetchOutcome, hc, if_false, hh, hs, hb, if_neg,
                Option.some.injEq, Bool.false_eq_true] at h
              subst h
              refine ⟨Event.httpGet (c.base_url ++ e), ?_, Or.inr rfl⟩
              simp only [get_api_response, hc, hh, hs, hb, if_false, if_neg,
                Bool.false_eq_true]
              cases hm : (save_to_mongodb c dd e w).1 <;> simp

theorem get_api_response_result_of_fetch (c : Collector) (e : String) (w : EndpointWorld)
    (hcl : w.closeError = none) :
    (get_api_response c e w).1 = Except.ok (fetchOutcome c e w) := by
  by_cases hc : c.test_mode
  · obtain ⟨b, hb⟩ := save_to_mongodb_ok c (mockDocument e w.mockNow) e w hcl
    simp only [get_api_response, fetchOutcome, hc, if_true]
    rw [hb]
  · cases hh : w.http with
    | transportError msg => simp [get_api_response, fetchOutcome, hc, hh]
    | response status body =>
        by_cases hs : 400 ≤ status ∧ status < 600
        · simp [get_api_response, fetchOutcome, hc, hh, hs]
        · cases hb : body with
          | notJson msg => simp [get_api_response, fetchOutcome, hc, hh, hs, hb]
          | json dd =>
              obtain ⟨b, hb2⟩ := save_to_mongodb_ok c dd e w hcl
              simp only [get_api_response, fetchOutcome, hc, hh, hs, hb, if_false,
                if_neg, Bool.false_eq_true]
              rw [hb2]

theorem fetchOutcome_of_result (c : Collector) (e : String) (w : EndpointWorld) (d : JValue)
    (h : (get_api_response c e w).1 = Except.ok (some d)) :
    fetchOutcome c e w = some d := by
  by_cases hc : c.test_mode
  · simp only [get_api_response, hc, if_true] at h
    cases hm : (save_to_mongodb c (mockDocument e w.mockNow) e w).1 <;> rw [hm] at h <;>
      simp at h
    simp [fetchOutcome, hc, h]
  · cases hh : w.http with
    | transportError msg => simp [get_api_response, hc, hh] at h
    | response status body =>
        by_cases hs : 400 ≤ status ∧ status < 600
        · simp [get_api_response, hc, hh, hs] at h
        · cases hb : body with
          | notJson msg => simp [get_api_response, hc, hh, hs, hb] at h
          | json dd =>
              simp only [get_api_response, hc, hh, hs, hb, if_false, if_neg,
                Bool.false_eq_true] at h
              cases hm : (save_to_mongodb c dd e w).1 <;> rw [hm] at h <;> simp at h
              simp [fetchOutcome, hc, hh, hs, hb, h]

theorem pyReplaceSlash_empty_iff (s : String) : pyReplaceSlash s = "" ↔ s = "" := by
  cases s with
  | mk data => cases data <;> simp [pyReplaceSlash, String.ext_iff]

/-- C5: the file sink derives its filename by stripping leading and trailing
separator characters, replacing each remaining separator with an underscore,
substituting the literal token root when the stripped result is empty and
appending the .json suffix; in particular the two given endpoints map to
redfish_v1.json and redfish_v1_Systems_1.json, the empty path maps to
root.json, the derivation agrees with the specification wording on every
endpoint string, it is injective on the fixed endpoint list, and it is
exactly the path the file sink writes under the output directory. -/
theorem c5_filename_derivation :
    filenameFor "/redfish/v1" = "redfish_v1.json" ∧
    filenameFor "/redfish/v1/Systems/1" = "redfish_v1_Systems_1.json" ∧
    filenameFor "" = "root.json" ∧
    (∀ e, filenameFor e = specFilename e) ∧
    (apiEndpoints.map filenameFor).Nodup ∧
    (∀ c d e w, fileWrites (save_to_file c d e w).2 =
      [Event.fileWrite (c.output_dir ++ "/" ++ filenameFor e) d w.fileError.isNone]) := by
  refine ⟨by decide, by decide, by decide, ?_, by decide, ?_⟩
  · intro e
    unfold filenameFor specFilename
    by_cases h : pyStrip e = ""
    · rw [h]
      simp [pyReplaceSlash]
    · have hne : pyReplaceSlash (pyStrip e) ≠ "" := fun hc =>
        h ((pyReplaceSlash_empty_iff (pyStrip e)).mp hc)
      rw [if_neg hne, if_neg h]
  · intro c d e w
    rw [fileWrites_save_to_file]
    rfl

/-- C9: with MONGO_URI, MONGO_DB and MONGO_COLLECTION unset at construction
time, the collector stores the literal four-character string None (Python
str of None) for each setting, construction succeeds, and every database
write then makes its connection attempt with the URI None. -/
theorem c9_unset_mongo_settings (env : String → Option String)
    (h1 : env "MONGO_URI" = none) (h2 : env "MONGO_DB" = none)
    (h3 : env "MONGO_COLLECTION" = none)
    (host user pass : String) (tm : Bool) :
    (RedfishCollector.init host user pass tm env).mongo_uri = "None" ∧
    (RedfishCollector.init host user pass tm env).mongo_db = "None" ∧
    (RedfishCollector.init host user pass tm env).mongo_collection = "None" ∧
    ("None" : String).length = 4 ∧
    ∀ d e w, Event.mongoConnect "None" w.connectError.isNone ∈
      (save_to_mongodb (RedfishCollector.init host user pass tm env) d e w).2 := by
  have hu : (RedfishCollector.init host user pass tm env).mongo_uri = "None" := by
    simp [RedfishCollector.init, pyStr, h1]
  refine ⟨hu, by simp [RedfishCollector.init, pyStr, h2],
    by simp [RedfishCollector.init, pyStr, h3], by decide, ?_⟩
  intro d e w
  have hc := mongoConnects_save_to_mongodb (RedfishCollector.init host user pass tm env) d e w
  rw [hu] at hc
  have hmem : Event.mongoConnect "None" w.connectError.isNone ∈
      mongoConnects (save_to_mongodb (RedfishCollector.init host user pass tm env) d e w).2 := by
    rw [hc]
    exact List.mem_singleton_self _
  simp only [mongoConnects] at hmem
  exact List.mem_of_mem_filter hmem

/-- Witness for C9 at the empty environment and a benign world. -/
theorem c9_unset_mongo_settings_witness :
    (RedfishCollector.init "h" "u" "p" true envNone).mongo_uri = "None" ∧
    Event.mongoConnect "None" true ∈
      (save_to_mongodb (RedfishCollector.init "h" "u" "p" true envNone)
        (JValue.jObj []) "/redfish/v1" benignWorld).2 := by
  have h := c9_unset_mongo_settings envNone rfl rfl rfl "h" "u" "p" true
  refine ⟨h.1, ?_⟩
  have hm := h.2.2.2.2 (JValue.jObj []) "/redfish/v1" benignWorld
  simpa [benignWorld] using hm

/-- Selects the database insert attempts of a trace. -/
def Event.isMongoInsert : Event → Bool
  | .mongoInsert .. => true
  | _ => false

def mongoInserts (t : List Event) : List Event := t.filter Event.isMongoInsert

theorem mongoInserts_save_to_mongodb (c : Collector) (d : JValue) (e : String)
    (w : EndpointWorld) (hco : w.connectError = none) :
    mongoInserts (save_to_mongodb c d e w).2 =
      [Event.mongoInsert c.mongo_db c.mongo_collection (mongoDocument c d e w)
        w.insertError.isNone] := by
  cases h2 : w.insertError <;> cases h3 : w.closeError <;>
    simp [save_to_mongodb, get_mongo_client, mongoInserts, hco, h2, h3,
      Event.isMongoInsert, List.filter]

/-- C3 counterexample: at a concrete endpoint and clock reading, the
simulated fetch succeeds but its document carries the marker under the key
mock_data and has no simulation_mode field at all. -/
theorem c3_counterexample :
    (get_api_response testC "/redfish/v1" benignWorld).1 =
      Except.ok (some (mockDocument "/redfish/v1" ts0)) ∧
    jLookup (mockDocument "/redfish/v1" ts0) "simulation_mode" = none ∧
    jLookup (mockDocument "/redfish/v1" ts0) "mock_data" = some (JValue.jBool true) := by
  exact ⟨rfl, rfl, rfl⟩

/-- C3 amended: for every endpoint, a fetch in simulation mode (with a close
call that does not itself raise) always succeeds and produces a document
that contains the endpoint, a mock_data true marker, and a valid UTC
ISO-8601 timestamp string. -/
theorem c3_simulated_document (c : Collector) (endpoint : String) (w : EndpointWorld)
    (hc : c.test_mode = true) (hv : w.mockNow.Valid) (hcl : w.closeError = none) :
    ∃ doc, (get_api_response c endpoint w).1 = Except.ok (some doc) ∧
      jLookup doc "endpoint" = some (JValue.jStr endpoint) ∧
      jLookup doc "mock_data" = some (JValue.jBool true) ∧
      ∃ ts, jLookup doc "timestamp" = some (JValue.jStr ts) ∧ isIso8601 ts = true := by
  refine ⟨mockDocument endpoint w.mockNow, ?_, ?_, ?_,
    w.mockNow.isoformat, ?_, isoformat_valid _ hv⟩
  · rw [get_api_response_result_of_fetch c endpoint w hcl]
    simp [fetchOutcome, hc]
  · simp [mockDocument, jLookup, List.find?]
  · simp [mockDocument, jLookup, List.find?]
  · simp [mockDocument, jLookup, List.find?]

/-- Witness for C3 at a concrete endpoint, clock and world. -/
theorem c3_simulated_document_witness :
    ∃ doc, (get_api_response testC "/redfish/v1" benignWorld).1 = Except.ok (some doc) ∧
      jLookup doc "endpoint" = some (JValue.jStr "/redfish/v1") ∧
      jLookup doc "mock_data" = some (JValue.jBool true) ∧
      ∃ ts, jLookup doc "timestamp" = some (JValue.jStr ts) ∧ isIso8601 ts = true :=
  c3_simulated_document testC "/redfish/v1" benignWorld rfl
    (by unfold Timestamp.Valid; decide) rfl

/-- C4 counterexample: the wrapper actually inserted at a concrete write
carries the run-mode flag under the key test_mode and has no field named
simulation_mode. -/
theorem c4_counterexample :
    Event.mongoInsert liveC.mongo_db liveC.mongo_collection
        (mongoDocument liveC (JValue.jObj []) "/redfish/v1" benignWorld)
        benignWorld.insertError.isNone ∈
      (save_to_mongodb liveC (JValue.jObj []) "/redfish/v1" benignWorld).2 ∧
    jLookup (mongoDocument liveC (JValue.jObj []) "/redfish/v1" benignWorld)
      "simulation_mode" = none ∧
    jLookup (mongoDocument liveC (JValue.jObj []) "/redfish/v1" benignWorld)
      "test_mode" = some (JValue.jBool false) := by
  refine ⟨?_, rfl, rfl⟩
  have hI := mongoInserts_save_to_mongodb liveC (JValue.jObj []) "/redfish/v1" benignWorld rfl
  have hmem : Event.mongoInsert liveC.mongo_db liveC.mongo_collection
      (mongoDocument liveC (JValue.jObj []) "/redfish/v1" benignWorld)
      benignWorld.insertError.isNone ∈
      mongoInserts (save_to_mongodb liveC (JValue.jObj []) "/redfish/v1" benignWorld).2 := by
    rw [hI]
    exact List.mem_singleton_self _
  simp only [mongoInserts] at hmem
  exact List.mem_of_mem_filter hmem

/-- C4 amended: every document the database sink inserts is the wrapper with
exactly the fields endpoint (string), data (the collected document embedded
verbatim), collection_date (the write-time clock reading), source (the base
URL string) and test_mode (the run-mode boolean); there is no
simulation_mode field. -/
theorem c4_persistence_record (c : Collector) (data : JValue) (endpoint : String)
    (w : EndpointWorld) (dbn coll : String) (d : JValue) (ok : Bool)
    (h : Event.mongoInsert dbn coll d ok ∈ (save_to_mongodb c data endpoint w).2) :
    d = mongoDocument c data endpoint w ∧
    jKeys d = ["endpoint", "data", "collection_date", "source", "test_mode"] ∧
    jLookup d "endpoint" = some (JValue.jStr endpoint) ∧
    jLookup d "data" = some data ∧
    jLookup d "collection_date" = some (JValue.jDate w.dbNow) ∧
    jLookup d "source" = some (JValue.jStr c.base_url) ∧
    jLookup d "test_mode" = some (JValue.jBool c.test_mode) ∧
    jLookup d "simulation_mode" = none := by
  have hd : d = mongoDocument c data endpoint w := by
    cases h1 : w.connectError with
    | some ex =>
        simp [save_to_mongodb, get_mongo_client, h1] at h
    | none =>
        cases h2 : w.insertError <;> cases h3 : w.closeError <;>
          simp [save_to_mongodb, get_mongo_client, h1, h2, h3, List.mem_cons] at h <;>
          exact h.2.2.1
  subst hd
  refine ⟨rfl, ?_, ?_, ?_, ?_, ?_, ?_, ?_⟩ <;>
    simp [mongoDocument, jKeys, jLookup, List.find?]

/-- Witness for C4 at a concrete write. -/
theorem c4_persistence_record_witness :
    jKeys (mongoDocument liveC (JValue.jObj []) "/redfish/v1" benignWorld) =
      ["endpoint", "data", "collection_date", "source", "test_mode"] := by
  have hI := mongoInserts_save_to_mongodb liveC (JValue.jObj []) "/redfish/v1" benignWorld rfl
  have hmem : Event.mongoInsert liveC.mongo_db liveC.mongo_collection
      (mongoDocument liveC (JValue.jObj []) "/redfish/v1" benignWorld)
      benignWorld.insertError.isNone ∈
      mongoInserts (save_to_mongodb liveC (JValue.jObj []) "/redfish/v1" benignWorld).2 := by
    rw [hI]
    exact List.mem_singleton_self _
  simp only [mongoInserts] at hmem
  exact (c4_persistence_record liveC (JValue.jObj []) "/redfish/v1" benignWorld
    liveC.mongo_db liveC.mongo_collection
    (mongoDocument liveC (JValue.jObj []) "/redfish/v1" benignWorld)
    benignWorld.insertError.isNone (List.mem_of_mem_filter hmem)).2.1

theorem fileWrites_cons_skip (x : Event) (t : List Event) (hx : Event.isFileWrite x = false) :
    fileWrites (x :: t) = fileWrites t := by
  simp [fileWrites, List.filter_cons, hx]

theorem fileWrites_append (a b : List Event) :
    fileWrites (a ++ b) = fileWrites a ++ fileWrites b := by
  simp [fileWrites, List.filter_append]

theorem mongoConnects_cons_skip (x : Event) (t : List Event)
    (hx : Event.isMongoConnect x = false) :
    mongoConnects (x :: t) = mongoConnects t := by
  simp [mongoConnects, List.filter_cons, hx]

theorem mongoConnects_append (a b : List Event) :
    mongoConnects (a ++ b) = mongoConnects a ++ mongoConnects b := by
  simp [mongoConnects, List.filter_append]

theorem mongoEvents_cons_skip (x : Event) (t : List Event)
    (hx : Event.isMongoEvent x = false) :
    mongoEvents (x :: t) = mongoEvents t := by
  simp [mongoEvents, List.filter_cons, hx]

theorem mongoEvents_append (a b : List Event) :
    mongoEvents (a ++ b) = mongoEvents a ++ mongoEvents b := by
  simp [mongoEvents, List.filter_append]

theorem fetchOutcome_congr (c : Collector) (e : String) {w w' : EndpointWorld}
    (hh : w.http = w'.http) (hn : w.mockNow = w'.mockNow) :
    fetchOutcome c e w = fetchOutcome c e w' := by
  simp [fetchOutcome, hh, hn]

theorem fileWrites_get_api_response (c : Collector) (e : String) (w : EndpointWorld)
    (d : JValue) (hf : fetchOutcome c e w = some d) :
    fileWrites (get_api_response c e w).2 =
      [Event.fileWrite (filepathFor c e) d w.fileError.isNone] := by
  obtain ⟨pre, htr, hpre⟩ := get_api_response_trace_of_fetch c e w d hf
  rw [htr]
  have hx : Event.isFileWrite pre = false := by
    rcases hpre with h | h <;> subst h <;> rfl
  rw [fileWrites_cons_skip _ _ hx, fileWrites_append, fileWrites_save_to_file,
    fileWrites_save_to_mongodb, List.append_nil]

theorem mongoConnects_get_api_response (c : Collector) (e : String) (w : EndpointWorld)
    (d : JValue) (hf : fetchOutcome c e w = some d) :
    mongoConnects (get_api_response c e w).2 =
      [Event.mongoConnect c.mongo_uri w.connectError.isNone] := by
  obtain ⟨pre, htr, hpre⟩ := get_api_response_trace_of_fetch c e w d hf
  rw [htr]
  have hx : Event.isMongoConnect pre = false := by
    rcases hpre with h | h <;> subst h <;> rfl
  rw [mongoConnects_cons_skip _ _ hx, mongoConnects_append, mongoConnects_save_to_file,
    mongoConnects_save_to_mongodb, List.nil_append]

theorem mongoEvents_get_api_response (c : Collector) (e : String) (w : EndpointWorld)
    (d : JValue) (hf : fetchOutcome c e w = some d) :
    mongoEvents (get_api_response c e w).2 = mongoEvents (save_to_mongodb c d e w).2 := by
  obtain ⟨pre, htr, hpre⟩ := get_api_response_trace_of_fetch c e w d hf
  rw [htr]
  have hx : Event.isMongoEvent pre = false := by
    rcases hpre with h | h <;> subst h <;> rfl
  rw [mongoEvents_cons_skip _ _ hx, mongoEvents_append, mongoEvents_save_to_file,
    List.nil_append]

/-- C1: when the fetch of an endpoint succeeds and returns a document, the
trace contains exactly one file-sink write attempt and exactly one
database-sink write attempt, the file-sink events are the same under any
change of the database-sink oracles, and the database-sink events are the
same under any change of the file-sink oracle — so the outcome of either
sink attempt has no effect on whether the other attempt is made or on its
outcome. -/
theorem c1_dual_write (c : Collector) (endpoint : String) (w : EndpointWorld) (doc : JValue)
    (h : (get_api_response c endpoint w).1 = Except.ok (some doc)) :
    (fileWrites (get_api_response c endpoint w).2).length = 1 ∧
    (mongoConnects (get_api_response c endpoint w).2).length = 1 ∧
    (∀ w' : EndpointWorld, w'.http = w.http → w'.mockNow = w.mockNow →
      w'.fileError = w.fileError →
      fileWrites (get_api_response c endpoint w').2 =
        fileWrites (get_api_response c endpoint w).2) ∧
    (∀ w' : EndpointWorld, w'.http = w.http → w'.mockNow = w.mockNow →
      w'.dbNow = w.dbNow → w'.connectError = w.connectError →
      w'.insertError = w.insertError → w'.closeError = w.closeError →
      w'.insertedId = w.insertedId →
      mongoEvents (get_api_response c endpoint w').2 =
        mongoEvents (get_api_response c endpoint w).2) := by
  have hf := fetchOutcome_of_result c endpoint w doc h
  refine ⟨?_, ?_, ?_, ?_⟩
  · rw [fileWrites_get_api_response c endpoint w doc hf]
    rfl
  · rw [mongoConnects_get_api_response c endpoint w doc hf]
    rfl
  · intro w' h1 h2 h3
    have hf' : fetchOutcome c endpoint w' = some doc := by
      rw [fetchOutcome_congr c endpoint h1 h2]
      exact hf
    rw [fileWrites_get_api_response c endpoint w doc hf,
      fileWrites_get_api_response c endpoint w' doc hf', h3]
  · intro w' h1 h2 h3 h4 h5 h6 h7
    have hf' : fetchOutcome c endpoint w' = some doc := by
      rw [fetchOutcome_congr c endpoint h1 h2]
      exact hf
    rw [mongoEvents_get_api_response c endpoint w doc hf,
      mongoEvents_get_api_response c endpoint w' doc hf',
      save_to_mongodb_congr c doc endpoint h4 h5 h6 h7 h3]

/-- Witness for C1 at a concrete successful fetch. -/
theorem c1_dual_write_witness :
    (fileWrites (get_api_response testC "/redfish/v1" benignWorld).2).length = 1 ∧
    (mongoConnects (get_api_response testC "/redfish/v1" benignWorld).2).length = 1 := by
  have h := c1_dual_write testC "/redfish/v1" benignWorld
    (mockDocument "/redfish/v1" ts0) rfl
  exact ⟨h.1, h.2.1⟩

/-- A world identical to the benign one on the fetch side but with both
sinks failing. -/
def faultyWorld : EndpointWorld :=
  { benignWorld with fileError := some "disk full", connectError := some "unreachable" }

/-- C10: the value get_api_response returns is Except.ok of the fetch
outcome alone (whenever no close call raises), so it is unaffected by
whether the file-sink write and the database-sink write succeed or fail. -/
theorem c10_return_value_independent (c : Collector) (endpoint : String)
    (w w' : EndpointWorld) (hh : w'.http = w.http) (hn : w'.mockNow = w.mockNow)
    (h1 : w.closeError = none) (h2 : w'.closeError = none) :
    (get_api_response c endpoint w).1 = Except.ok (fetchOutcome c endpoint w) ∧
    (get_api_response c endpoint w').1 = (get_api_response c endpoint w).1 := by
  refine ⟨get_api_response_result_of_fetch c endpoint w h1, ?_⟩
  rw [get_api_response_result_of_fetch c endpoint w h1,
    get_api_response_result_of_fetch c endpoint w' h2,
    fetchOutcome_congr c endpoint hh hn]

/-- Witness for C10: failing both sinks does not change the returned value. -/
theorem c10_return_value_independent_witness :
    (get_api_response testC "/redfish/v1" benignWorld).1 =
      Except.ok (fetchOutcome testC "/redfish/v1" benignWorld) ∧
    (get_api_response testC "/redfish/v1" faultyWorld).1 =
      (get_api_response testC "/redfish/v1" benignWorld).1 :=
  c10_return_value_independent testC "/redfish/v1" benignWorld faultyWorld rfl rfl rfl rfl

theorem mongoCloses_save_to_mongodb (c : Collector) (d : JValue) (e : String)
    (w : EndpointWorld) (hco : w.connectError = none) :
    mongoCloses (save_to_mongodb c d e w).2 = [Event.mongoClose] := by
  cases h2 : w.insertError <;> cases h3 : w.closeError <;>
    simp [save_to_mongodb, get_mongo_client, mongoCloses, hco, h2, h3,
      Event.isMongoClose, List.filter]

/-- A world where connection and insert succeed but client.close raises. -/
def closeBoomWorld : EndpointWorld := { benignWorld with closeError := some "boom" }

/-- A world where the connection attempt fails. -/
def connectFailWorld : EndpointWorld := { benignWorld with connectError := some "refused" }

/-- C7 counterexample: at a concrete write whose connection and insert both
succeed, an exception raised by client.close inside the finally block
propagates out of _save_to_mongodb instead of being caught and reported as
a local failure. -/
theorem c7_counterexample :
    (save_to_mongodb liveC (JValue.jObj []) "/redfish/v1" closeBoomWorld).1 =
      Except.error "boom" ∧
    Event.mongoClose ∈ (save_to_mongodb liveC (JValue.jObj []) "/redfish/v1" closeBoomWorld).2 := by
  refine ⟨rfl, ?_⟩
  have hc := mongoCloses_save_to_mongodb liveC (JValue.jObj []) "/redfish/v1" closeBoomWorld rfl
  have hmem : Event.mongoClose ∈
      mongoCloses (save_to_mongodb liveC (JValue.jObj []) "/redfish/v1" closeBoomWorld).2 := by
    rw [hc]
    exact List.mem_singleton_self _
  simp only [mongoCloses] at hmem
  exact List.mem_of_mem_filter hmem

/-- C7 amended: once the connection is acquired, the client is closed on
every exit path (exactly one close call, whether the insert succeeded or
raised, and even when close itself raises); with no acquired client there
is nothing to close; an exception during connection or insertion is caught
and reported as a local False result; but an exception raised by the close
call itself propagates out of the write operation. -/
theorem c7_connection_scope (c : Collector) (d : JValue) (e : String) (w : EndpointWorld) :
    (w.connectError = none →
      mongoCloses (save_to_mongodb c d e w).2 = [Event.mongoClose]) ∧
    (∀ ex, w.connectError = some ex →
      (save_to_mongodb c d e w).1 = Except.ok false ∧
      mongoCloses (save_to_mongodb c d e w).2 = []) ∧
    (w.connectError = none → w.closeError = none → ∀ ex, w.insertError = some ex →
      (save_to_mongodb c d e w).1 = Except.ok false) ∧
    (∀ ex, w.connectError = none → w.closeError = some ex →
      (save_to_mongodb c d e w).1 = Except.error ex) := by
  refine ⟨?_, ?_, ?_, ?_⟩
  · intro hco
    exact mongoCloses_save_to_mongodb c d e w hco
  · intro ex hco
    constructor
    · simp [save_to_mongodb, get_mongo_client, hco]
    · simp [save_to_mongodb, get_mongo_client, mongoCloses, hco,
        Event.isMongoClose, List.filter]
  · intro hco hcl ex hin
    simp [save_to_mongodb, get_mongo_client, hco, hcl, hin]
  · intro ex hco hcl
    cases h2 : w.insertError <;>
      simp [save_to_mongodb, get_mongo_client, hco, hcl, h2]

/-- Witness for C7 at concrete worlds: a raising close is still invoked and
its exception propagates; a failing connection is reported locally. -/
theorem c7_connection_scope_witness :
    mongoCloses (save_to_mongodb liveC (JValue.jObj []) "/redfish/v1" closeBoomWorld).2 =
      [Event.mongoClose] ∧
    (save_to_mongodb liveC (JValue.jObj []) "/redfish/v1" connectFailWorld).1 =
      Except.ok false ∧
    (save_to_mongodb liveC (JValue.jObj []) "/redfish/v1" closeBoomWorld).1 =
      Except.error "boom" :=
  ⟨(c7_connection_scope liveC (JValue.jObj []) "/redfish/v1" closeBoomWorld).1 rfl,
   ((c7_connection_scope liveC (JValue.jObj []) "/redfish/v1" connectFailWorld).2.1
     "refused" rfl).1,
   (c7_connection_scope liveC (JValue.jObj []) "/redfish/v1" closeBoomWorld).2.2.2
     "boom" rfl rfl⟩

/-- C8: in live mode, a 2xx response whose body is not valid JSON is a fetch
failure handled locally: the call returns None rather than raising (so the
run is not aborted), no write is attempted on either sink, and the failure
is logged. -/
theorem c8_malformed_json (c : Collector) (endpoint : String) (w : EndpointWorld)
    (status : Nat) (msg : String) (hc : c.test_mode = false)
    (hw : w.http = HttpResult.response status (Body.notJson msg))
    (h2 : 200 ≤ status) (h3 : status < 300) :
    (get_api_response c endpoint w).1 = Except.ok none ∧
    fileWrites (get_api_response c endpoint w).2 = [] ∧
    mongoConnects (get_api_response c endpoint w).2 = [] ∧
    Event.log ("Error accessing " ++ (c.base_url ++ endpoint) ++ ": " ++ msg) ∈
      (get_api_response c endpoint w).2 := by
  have hs : ¬(400 ≤ status ∧ status < 600) := by omega
  refine ⟨?_, ?_, ?_, ?_⟩ <;>
    simp [get_api_response, hc, hw, hs, fileWrites, mongoConnects,
      Event.isFileWrite, Event.isMongoConnect, List.filter]

/-- A live-mode world with a 2xx response whose body fails to parse. -/
def notJsonWorld : EndpointWorld :=
  { benignWorld with
    http := .response 200 (.notJson "Expecting value: line 1 column 1 (char 0)") }

/-- Witness for C8 at a concrete 200 response with a non-JSON body. -/
theorem c8_malformed_json_witness :
    (get_api_response liveC "/redfish/v1" notJsonWorld).1 = Except.ok none ∧
    fileWrites (get_api_response liveC "/redfish/v1" notJsonWorld).2 = [] ∧
    mongoConnects (get_api_response liveC "/redfish/v1" notJsonWorld).2 = [] := by
  have h := c8_malformed_json liveC "/redfish/v1" notJsonWorld 200
    "Expecting value: line 1 column 1 (char 0)" rfl rfl (by omega) (by omega)
  exact ⟨h.1, h.2.1, h.2.2.1⟩

/-- A live-mode world whose response carries status 304 and a JSON body. -/
def status304World : EndpointWorld :=
  { benignWorld with http := .response 304 (.json (JValue.jObj [])) }

/-- C2 counterexample: a status of 304 is not a 2xx success status, yet the
code does not treat that fetch as failed — raise_for_status only raises for
the 400-599 range — so both sink writes are attempted. -/
theorem c2_counterexample :
    ¬(200 ≤ 304 ∧ 304 < 300) ∧
    (fileWrites (get_api_response liveC "/redfish/v1" status304World).2).length = 1 ∧
    (mongoConnects (get_api_response liveC "/redfish/v1" status304World).2).length = 1 := by
  refine ⟨by omega, ?_, ?_⟩
  · rw [fileWrites_get_api_response liveC "/redfish/v1" status304World (JValue.jObj []) rfl]
    rfl
  · rw [mongoConnects_get_api_response liveC "/redfish/v1" status304World (JValue.jObj []) rfl]
    rfl

theorem get_api_response_ok (c : Collector) (e : String) (w : EndpointWorld)
    (hcl : w.closeError = none) :
    ∃ r, (get_api_response c e w).1 = Except.ok r :=
  ⟨fetchOutcome c e w, get_api_response_result_of_fetch c e w hcl⟩

theorem collectLoop_all_processed (c : Collector) (w : String → EndpointWorld)
    (hcl : ∀ e, (w e).closeError = none) (es : List String) :
    (collectLoop c w es).2 = none ∧
    ∀ e ∈ es, Event.log ("Collecting " ++ e) ∈ (collectLoop c w es).1 := by
  induction es with
  | nil => simp [collectLoop]
  | cons a t ih =>
      obtain ⟨r, hr⟩ := get_api_response_ok c a (w a) (hcl a)
      rcases hg : get_api_response c a (w a) with ⟨res, ev⟩
      rw [hg] at hr
      simp only at hr
      subst hr
      constructor
      · simp only [collectLoop, hg]
        exact ih.1
      · intro e he
        simp only [collectLoop, hg]
        rcases List.mem_cons.mp he with rfl | he'
        · exact List.mem_cons_self _ _
        · exact List.mem_cons_of_mem _ (List.mem_append_right _ (ih.2 e he'))

theorem collect_all_processes (c : Collector) (w : String → EndpointWorld)
    (hcl : ∀ e, (w e).closeError = none) :
    (collect_all c w).2 = none ∧
    ∀ e ∈ c.api_endpoints, Event.log ("Collecting " ++ e) ∈ (collect_all c w).1 := by
  obtain ⟨h1, h2⟩ := collectLoop_all_processed c w hcl c.api_endpoints
  rcases hl : collectLoop c w c.api_endpoints with ⟨evs, err⟩
  rw [hl] at h1 h2
  simp only at h1 h2
  subst h1
  constructor
  · simp [collect_all, hl]
  · intro e he
    simp only [collect_all, hl]
    exact List.mem_append_left _ (List.mem_append_right _ (h2 e he))

/-- C2 amended: for every endpoint whose live-mode fetch fails — a transport
error, or an HTTP status in the 400-599 range, the statuses
raise_for_status raises for — zero writes are attempted to either sink for
that endpoint, the failure is logged, and the orchestrator processes the
remaining endpoints exactly as it would have alone, so every subsequent
endpoint in the fixed list is still processed. -/
theorem c2_fetch_failure_isolated (c : Collector) (w : String → EndpointWorld)
    (endpoint : String) (hc : c.test_mode = false)
    (hf : fetchFails (w endpoint).http = true) :
    ((get_api_response c endpoint (w endpoint)).1 = Except.ok none ∧
     fileWrites (get_api_response c endpoint (w endpoint)).2 = [] ∧
     mongoConnects (get_api_response c endpoint (w endpoint)).2 = [] ∧
     (∃ m, Event.log m ∈ (get_api_response c endpoint (w endpoint)).2)) ∧
    (∀ rest, collectLoop c w (endpoint :: rest) =
      (Event.log ("Collecting " ++ endpoint) ::
        ((get_api_response c endpoint (w endpoint)).2 ++ (collectLoop c w rest).1),
       (collectLoop c w rest).2)) ∧
    ((∀ e2, (w e2).closeError = none) →
      ∀ e2 ∈ c.api_endpoints,
        Event.log ("Collecting " ++ e2) ∈ (collect_all c w).1) := by
  obtain ⟨m, hm⟩ := get_api_response_fetchFail c endpoint (w endpoint) hc hf
  refine ⟨⟨?_, ?_, ?_, ⟨m, ?_⟩⟩, ?_, fun hcl => (collect_all_processes c w hcl).2⟩
  · rw [hm]
  · rw [hm]
    rfl
  · rw [hm]
    rfl
  · rw [hm]
    simp
  · intro rest
    simp [collectLoop, hm]

/-- A live-mode world whose GET raises a connection timeout. -/
def transportFailWorld : EndpointWorld :=
  { benignWorld with http := .transportError "connection timeout" }

/-- Witness for C2 at a concrete transport failure. -/
theorem c2_fetch_failure_isolated_witness :
    (get_api_response liveC "/redfish/v1" transportFailWorld).1 = Except.ok none ∧
    fileWrites (get_api_response liveC "/redfish/v1" transportFailWorld).2 = [] ∧
    mongoConnects (get_api_response liveC "/redfish/v1" transportFailWorld).2 = [] := by
  have h := c2_fetch_failure_isolated liveC (fun _ => transportFailWorld) "/redfish/v1" rfl rfl
  exact ⟨h.1.1, h.1.2.1, h.1.2.2.1⟩

/-- Boolean substring containment: some slice of the haystack equals the
needle. -/
def strContains (hay needle : String) : Bool :=
  (List.range (hay.length + 1)).any fun i => (hay.drop i).take needle.length == needle

/-- C6: in non-simulation mode, if any of ILO_HOST, ILO_USER, ILO_PASSWORD
is unset or empty, main raises the configuration ValueError whose message
names every missing variable, and produces no events at all — so no HTTP
request and no collection happens; if all three are present, no
configuration error is raised. -/
theorem c6_config_error (env : String → Option String) (w : String → EndpointWorld)
    (hnt : testModeOf env = false) :
    (missingVars env ≠ [] →
      main env w = ([], some (RunError.configError
        ("Missing required ILO credentials: " ++
          String.intercalate ", " (missingVars env))))) ∧
    (∀ v ∈ missingVars env,
      strContains ("Missing required ILO credentials: " ++
        String.intercalate ", " (missingVars env)) v = true) ∧
    (missingVars env = [] → ∀ m, (main env w).2 ≠ some (RunError.configError m)) := by
  refine ⟨?_, ?_, ?_⟩
  · intro hne
    have hie : (missingVars env).isEmpty = false := by
      cases hmv : missingVars env with
      | nil => exact absurd hmv hne
      | cons a t => rfl
    simp [main, hnt, hie]
  · cases b1 : truthyEnv (env "ILO_HOST") <;> cases b2 : truthyEnv (env "ILO_USER") <;>
      cases b3 : truthyEnv (env "ILO_PASSWORD") <;>
      simp only [missingVars, requiredVars, List.filter_cons, List.filter_nil,
        b1, b2, b3, Bool.not_false, Bool.not_true, if_true, if_false] <;>
      decide
  · intro hmv m
    have hie : (missingVars env).isEmpty = true := by
      rw [hmv]
      rfl
    rcases hca : collect_all (RedfishCollector.init ((env "ILO_HOST").getD "")
      ((env "ILO_USER").getD "") ((env "ILO_PASSWORD").getD "") false env) w with ⟨t, err⟩
    simp only [main, hnt, hie, hca, Bool.false_eq_true, if_false, if_true]
    cases err <;> simp

/-- Witness for C6 at the empty environment, where all three credentials are
missing. -/
theorem c6_config_error_witness :
    main envNone (fun _ => benignWorld) =
      ([], some (RunError.configError
        ("Missing required ILO credentials: " ++
          String.intercalate ", " (missingVars envNone)))) := by
  have h := c6_config_error envNone (fun _ => benignWorld) (by decide)
  exact h.1 (by decide)

end ILOCollector
